import Mathlib

/-!
Verification of the job/payment orchestration core of the
`agentic-service-wrapper` service (`main.py`, `agentic_service.py`).

The embedding models:
* the in-memory stores `jobs` and `payment_instances` (main.py lines 98-99)
  as association lists keyed by job id;
* the endpoint `start_job` (lines 145-303) as a state-passing function whose
  external-call outcomes (the payment adapter) are explicit parameters;
* the payment-confirmation handler `handle_payment_status` (lines 308-345)
  as a small-step transition system: the handler suspends at its two `await`
  points (`execute_agentic_task`, `complete_payment`), so it is split into
  atomic segments, and the suspended continuation is tracked per job;
* the endpoint `get_status` (lines 350-382) as a function of the state and of
  the outcome of the adapter's `check_payment_status` call;
* the sample Work Executor `AgenticService.execute_task`
  (agentic_service.py lines 19-40), a pure string reversal.

External adapter calls (`create_payment_request`, `complete_payment`,
`check_payment_status`) are fallible; their outcomes appear as parameters of
the corresponding step.  `stop_status_monitoring` is modelled as non-failing
(the adapter contract declares it idempotent and safe), and every external
call made by the handler is recorded in an instrumentation log so that
"called exactly once / never called" properties are stated over the logs.
-/

/-! ### Association-list and list-count helpers

Python dicts keyed by job id are modelled as association lists; `del` and
membership tests are modelled by the helpers below.  All keys are `String`.
-/

/-- Lookup in an association list (Python `d[k]` / `d.get(k)`). -/
def alookup {α : Type} : List (String × α) → String → Option α
  | [], _ => none
  | (k, v) :: rest, x => if k = x then some v else alookup rest x

/-- Point update of an association list (Python `d[k] = f(d[k])`). -/
def aupdate {α : Type} (l : List (String × α)) (x : String) (f : α → α) :
    List (String × α) :=
  l.map (fun p => if p.1 = x then (p.1, f p.2) else p)

/-- Key removal from an association list (Python `del d[k]`). -/
def aerase {α : Type} (l : List (String × α)) (x : String) : List (String × α) :=
  l.filter (fun p => p.1 ≠ x)

/-- Number of occurrences of a string in a list. -/
def scount (l : List String) (x : String) : Nat :=
  (l.filter (fun y => y = x)).length

/-- Membership test on a list of strings (Python `k in d`). -/
def smem (l : List String) (x : String) : Bool :=
  match l with
  | [] => false
  | y :: ys => y = x || smem ys x

/-- Removal of a string key (Python `del d[k]` for the instances dict). -/
def sremove (l : List String) (x : String) : List String :=
  l.filter (fun y => y ≠ x)

/-- No string occurs twice. -/
def snodup : List String → Bool
  | [] => true
  | x :: xs => !smem xs x && snodup xs

theorem alookup_aupdate_self {α : Type} (l : List (String × α)) (x : String)
    (f : α → α) : alookup (aupdate l x f) x = (alookup l x).map f := by
  induction l with
  | nil => rfl
  | cons p rest ih =>
    simp only [aupdate, List.map_cons]
    simp only [aupdate] at ih
    by_cases h : p.1 = x
    · rw [if_pos h]
      simp [alookup, h]
    · rw [if_neg h]
      simp [alookup, h, ih]

theorem alookup_aupdate_ne {α : Type} (l : List (String × α)) (x y : String)
    (f : α → α) (hxy : x ≠ y) : alookup (aupdate l x f) y = alookup l y := by
  induction l with
  | nil => rfl
  | cons p rest ih =>
    simp only [aupdate, List.map_cons]
    simp only [aupdate] at ih
    by_cases h : p.1 = x
    · have h2 : ¬ p.1 = y := by rw [h]; exact hxy
      rw [if_pos h]
      simp [alookup, h2, ih]
    · rw [if_neg h]
      by_cases h2 : p.1 = y
      · simp [alookup, h2]
      · simp [alookup, h2, ih]

theorem alookup_aerase_self {α : Type} (l : List (String × α)) (x : String) :
    alookup (aerase l x) x = none := by
  induction l with
  | nil => rfl
  | cons p rest ih =>
    simp only [aerase, ne_eq, List.filter_cons, decide_not] at ih ⊢
    by_cases h : p.1 = x
    · simpa [h] using ih
    · simpa [alookup, h] using ih

theorem alookup_aerase_ne {α : Type} (l : List (String × α)) (x y : String)
    (hxy : x ≠ y) : alookup (aerase l x) y = alookup l y := by
  induction l with
  | nil => rfl
  | cons p rest ih =>
    simp only [aerase, ne_eq, List.filter_cons, decide_not] at ih ⊢
    by_cases h : p.1 = x
    · have h2 : ¬ p.1 = y := by rw [h]; exact hxy
      simp [alookup, h, h2, hxy, ih]
    · by_cases h2 : p.1 = y
      · simp [alookup, h, h2, Ne.symm hxy]
      · simp [alookup, h, h2, ih]

theorem scount_append (l1 l2 : List String) (x : String) :
    scount (l1 ++ l2) x = scount l1 x + scount l2 x := by
  simp [scount, List.filter_append]

theorem scount_cons (y : String) (l : List String) (x : String) :
    scount (y :: l) x = (if y = x then 1 else 0) + scount l x := by
  by_cases h : y = x <;> simp [scount, h, Nat.add_comm]

theorem scount_singleton (y x : String) :
    scount [y] x = if y = x then 1 else 0 := by
  by_cases h : y = x <;> simp [scount, h]

theorem scount_sremove_self (l : List String) (x : String) :
    scount (sremove l x) x = 0 := by
  induction l with
  | nil => rfl
  | cons y ys ih =>
    simp only [sremove, ne_eq, List.filter_cons, decide_not] at ih ⊢
    by_cases h : y = x
    · simpa [h] using ih
    · simpa [h, scount_cons] using ih

theorem scount_sremove_ne (l : List String) (x y : String) (hxy : x ≠ y) :
    scount (sremove l x) y = scount l y := by
  induction l with
  | nil => rfl
  | cons z zs ih =>
    simp only [sremove, ne_eq, List.filter_cons, decide_not] at ih ⊢
    by_cases h : z = x
    · have h2 : ¬ z = y := by rw [h]; exact hxy
      simp [h, scount_cons, h2, hxy, ih]
    · simp [h, scount_cons, ih]

theorem smem_iff_scount_pos (l : List String) (x : String) :
    smem l x = true ↔ 0 < scount l x := by
  induction l with
  | nil => simp [smem, scount]
  | cons y ys ih =>
    by_cases h : y = x
    · simp [smem, h, scount_cons]
    · simp [smem, h, scount_cons, ih]

theorem snodup_count_le_one (l : List String) (h : snodup l = true) (x : String) :
    scount l x ≤ 1 := by
  induction l with
  | nil => simp [scount]
  | cons y ys ih =>
    simp only [snodup, Bool.and_eq_true, Bool.not_eq_true'] at h
    rcases h with ⟨hm, hnd⟩
    have hys := ih hnd
    rw [scount_cons]
    by_cases hx : y = x
    · subst hx
      have h0 : scount ys y = 0 := by
        by_contra hc
        have hpos : 0 < scount ys y := Nat.pos_of_ne_zero hc
        rw [← smem_iff_scount_pos] at hpos
        rw [hpos] at hm
        exact absurd hm (by simp)
      simp [h0]
    · simp only [hx, if_false, Nat.zero_add]
      exact hys

/-! ### Data model

`jobs[job_id]` (main.py line 228) is a dict with keys `status`,
`payment_status`, `payment_id`, `input_data`, `result`,
`identifier_from_purchaser`; the failure branch of `handle_payment_status`
(line 340) additionally writes an `error` key, modelled as an `Option`
field that is `none` until that write.  The four string values ever written
to `status` are modelled as an inductive type.
-/

/-- The four values main.py ever writes to `jobs[job_id]["status"]`
(lines 229, 314, 329, 339). -/
inductive JobStatus where
  | awaiting_payment
  | running
  | completed
  | failed
deriving DecidableEq, Repr

/-- `ServiceResult.__init__` (agentic_service.py lines 1-11): `raw` is the
reversed text and `json_dict` the three-entry dict built there. -/
structure ServiceResult where
  original_text : String
  reversed_text : String
  raw : String
  json_dict : List (String × String)
deriving DecidableEq, Repr

/-- `ServiceResult(original_text, reversed_text)` (agentic_service.py 3-11). -/
def ServiceResult.make (original_text reversed_text : String) : ServiceResult :=
  { original_text := original_text
    reversed_text := reversed_text
    raw := reversed_text
    json_dict := [("original_text", original_text),
                  ("reversed_text", reversed_text),
                  ("task", "reverse_echo")] }

/-- One record of the in-memory `jobs` store (main.py lines 228-235). -/
structure Job where
  status : JobStatus
  payment_status : Option String
  payment_id : String
  input_data : List (String × String)
  result : Option ServiceResult
  error : Option String
  identifier_from_purchaser : String
deriving DecidableEq, Repr

instance : Inhabited Job :=
  ⟨{ status := .awaiting_payment, payment_status := none, payment_id := ""
     input_data := [], result := none, error := none
     identifier_from_purchaser := "" }⟩

/-- The job record inserted by `start_job` (main.py lines 228-235). -/
def newJob (input_data : List (String × String))
    (payment_id identifier_from_purchaser : String) : Job :=
  { status := .awaiting_payment
    payment_status := some "pending"
    payment_id := payment_id
    input_data := input_data
    result := none
    error := none
    identifier_from_purchaser := identifier_from_purchaser }

/-- The suspended continuation of one invocation of `handle_payment_status`:
`executing` is suspended at `await execute_agentic_task` (line 319),
`finalizing` at `await ... complete_payment` (line 325, holding the produced
result). -/
inductive HandlerPhase where
  | executing (payment_id : String)
  | finalizing (payment_id : String) (result : ServiceResult)
deriving DecidableEq, Repr

/-- The mutable server state: the two module-level dicts `jobs` and
`payment_instances` (main.py lines 98-99), the in-flight handler
continuations, and instrumentation logs of the adapter calls made by the
handler (one entry per call, holding the job id). -/
structure ServerState where
  jobs : List (String × Job)
  payment_instances : List String
  handlers : List (String × HandlerPhase)
  execCalls : List String
  stopCalls : List String
  finalizeCalls : List String
deriving DecidableEq, Repr

/-- State at server start: both dicts empty, nothing in flight. -/
def initState : ServerState :=
  { jobs := [], payment_instances := [], handlers := []
    execCalls := [], stopCalls := [], finalizeCalls := [] }

/-! ### The sample Work Executor -/

/-- Python `dict.get(k, default)` on a dict built by a comprehension from a
key/value list: the comprehension keeps the last occurrence of a key. -/
def pyDictGet (l : List (String × String)) (k : String) (default : String) :
    String :=
  (alookup l.reverse k).getD default

/-- Membership test `k in d` for the same dict. -/
def pyDictHas (l : List (String × String)) (k : String) : Bool :=
  (alookup l.reverse k).isSome

/-- `AgenticService.execute_task` (agentic_service.py lines 19-40):
reads `input_string` (default `""`) and returns the character-wise
reversal wrapped in a `ServiceResult`. -/
def AgenticService.execute_task (input_data : List (String × String)) :
    ServiceResult :=
  let text := pyDictGet input_data "input_string" ""
  let reversed_text := String.mk text.data.reverse
  ServiceResult.make text reversed_text

/-- `execute_agentic_task` (main.py lines 134-140): constructs an
`AgenticService` and runs its `execute_task`. -/
def execute_agentic_task (input_data : List (String × String)) :
    ServiceResult :=
  AgenticService.execute_task input_data

example : (execute_agentic_task [("input_string", "Hello")]).raw = "olleH" := by
  decide

/-! ### Configuration and startup validation (main.py lines 22-85, 387-397) -/

/-- The environment variables read by main.py, after the module-level
defaults are applied: `PAYMENT_SERVICE_URL` and `PAYMENT_API_KEY` default to
`""` (lines 24-25), `NETWORK` to `"preview"` (line 26), `PAYMENT_AMOUNT` to
`"1000000"` and `PAYMENT_UNIT` to `"lovelace"` (lines 200-201),
`AGENT_IDENTIFIER` and `SELLER_VKEY` to `""` (lines 154, 246). -/
structure Env where
  AGENT_IDENTIFIER : String
  PAYMENT_SERVICE_URL : String
  PAYMENT_API_KEY : String
  NETWORK : String
  SELLER_VKEY : String
  PAYMENT_AMOUNT : String
deriving DecidableEq, Repr

/-- ASCII whitespace removed by Python `str.strip()`. -/
def pyIsSpace (c : Char) : Bool :=
  c = ' ' ∨ c = '\t' ∨ c = '\n' ∨ c = '\r' ∨ c = '\x0b' ∨ c = '\x0c'

/-- Python `str.strip()`: drop leading and trailing whitespace. -/
def pyStrip (s : String) : String :=
  String.mk (((s.data.dropWhile pyIsSpace).reverse.dropWhile pyIsSpace).reverse)

/-- One character list starts with another. -/
def listPre : List Char → List Char → Bool
  | [], _ => true
  | _ :: _, [] => false
  | c :: cs, d :: ds => c = d && listPre cs ds

/-- Python `s.startswith(pre)`. -/
def pyStartsWith (s pre : String) : Bool :=
  listPre pre.data s.data

/-- One character list occurs inside another. -/
def listSub (pat : List Char) : List Char → Bool
  | [] => listPre pat []
  | d :: ds => listPre pat (d :: ds) || listSub pat ds

/-- Python `pat in s` substring test. -/
def containsSub (s pat : String) : Bool :=
  listSub pat.data s.data

/-- Value of a decimal digit character. -/
def digitVal (c : Char) : Option Nat :=
  if 48 ≤ c.toNat ∧ c.toNat ≤ 57 then some (c.toNat - 48) else none

/-- Value of a nonempty all-digit character list. -/
def digitsVal (l : List Char) : Option Nat :=
  match l with
  | [] => none
  | _ =>
    l.foldl (fun acc c =>
      match acc, digitVal c with
      | some n, some d => some (n * 10 + d)
      | _, _ => none) (some 0)

/-- Python `int(s)` on a decimal literal: optional surrounding whitespace,
optional sign, at least one digit; `none` models the raised `ValueError`. -/
def pyInt (s : String) : Option Int :=
  let l := ((s.data.dropWhile pyIsSpace).reverse.dropWhile pyIsSpace).reverse
  match l with
  | '-' :: rest => (digitsVal rest).map (fun n => -(n : Int))
  | '+' :: rest => (digitsVal rest).map (fun n => (n : Int))
  | _ => (digitsVal l).map (fun n => (n : Int))

/-- ASCII part of Python `str.lower()` (all that the classification
literals need). -/
def pyLower (s : String) : String :=
  String.mk (s.data.map (fun c =>
    if 65 ≤ c.toNat ∧ c.toNat ≤ 90 then Char.ofNat (c.toNat + 32) else c))

/-- The part of the authority of a URL that `urlparse` reports as `netloc`:
what follows the `//` up to the next `/`, `?` or `#`.  Only evaluated after
the scheme-prefix check has passed. -/
def urlNetloc (url : String) : String :=
  let rest := if pyStartsWith url "https://" then url.data.drop 8
    else if pyStartsWith url "http://" then url.data.drop 7 else []
  String.mk (rest.takeWhile (fun c => c ≠ '/' ∧ c ≠ '?' ∧ c ≠ '#'))

/-- `validate_url` (main.py lines 32-49): returns the error message, or `""`
when the URL is acceptable. -/
def validate_url (url name : String) : String :=
  if url = "" then name ++ " is not set"
  else if ¬ (pyStartsWith url "http://" ∨ pyStartsWith url "https://") then
    name ++ " must start with https or http (got: " ++ url ++ ")"
  else if urlNetloc url = "" then
    name ++ " is not a valid URL format (got: " ++ url ++ ")"
  else ""

/-- `validate_environment` (main.py lines 51-80): `true` iff the error list
stays empty.  The checks, in source order: `AGENT_IDENTIFIER` stripped and
neither empty nor the placeholder `REPLACE`; `PAYMENT_SERVICE_URL` passes
`validate_url`; `PAYMENT_API_KEY` nonempty; `NETWORK` nonempty. -/
def validate_environment (env : Env) : Bool :=
  let agent_id := pyStrip env.AGENT_IDENTIFIER
  ¬ (agent_id = "" ∨ agent_id = "REPLACE")
    ∧ validate_url env.PAYMENT_SERVICE_URL "PAYMENT_SERVICE_URL" = ""
    ∧ ¬ env.PAYMENT_API_KEY = ""
    ∧ ¬ env.NETWORK = ""

/-- Response of `/availability` (main.py lines 387-397). -/
structure AvailabilityResponse where
  status : String
  uptime : Nat
  message : String
deriving DecidableEq, Repr

/-- `check_availability` (main.py lines 387-397): unconditional
`"available"`; the handler reads nothing but the clock.  Startup runs
`validate_environment` but only logs on failure and starts the server
anyway (lines 82-85), so no configuration information reaches this
handler. -/
def check_availability (server_start_time current_time : Nat) :
    AvailabilityResponse :=
  { status := "available"
    uptime := current_time - server_start_time
    message := "Server operational." }

/-! ### start_job (main.py lines 145-303) -/

/-- The fields of `payment_request["data"]` that `start_job` reads
(lines 223, 266-270). -/
structure PaymentRequestData where
  blockchainIdentifier : String
  submitResultTime : String
  unlockTime : String
  externalDisputeUnlockTime : String
  inputHash : String
deriving DecidableEq, Repr

/-- The distinct error responses `start_job` can produce, one per
`HTTPException` site (the status code and detail text are determined by the
constructor). -/
inductive StartJobError where
  /-- 500, `AGENT_IDENTIFIER` missing or placeholder (lines 155-160). -/
  | configAgentIdentifier
  /-- 500, `PAYMENT_SERVICE_URL` invalid (lines 163-169), with the
  `validate_url` message. -/
  | configPaymentServiceUrl (msg : String)
  /-- 500, `PAYMENT_API_KEY` missing (lines 171-176). -/
  | configPaymentApiKey
  /-- 400, `input_string` missing from `input_data` (lines 186-191). -/
  | badInputString
  /-- 500, `PAYMENT_AMOUNT` does not parse as an int (lines 275-281). -/
  | configPaymentAmount
  /-- 502, adapter error classified as a payment-service failure
  (lines 292-299). -/
  | upstreamUnavailable
  /-- 500, any other unexpected error (lines 300-303). -/
  | internalError
  /-- 500, `SELLER_VKEY` missing (lines 246-252). -/
  | configSellerVkey
deriving DecidableEq, Repr

/-- Successful response of `start_job` (lines 256-271). -/
structure StartJobResponse where
  job_id : String
  payment_id : String
  identifierFromPurchaser : String
  network : String
  sellerVkey : String
  paymentType : String
  blockchainIdentifier : String
  submitResultTime : String
  unlockTime : String
  externalDisputeUnlockTime : String
  agentIdentifier : String
  inputHash : String
deriving DecidableEq, Repr

/-- Insertion performed at main.py lines 228-241: the job record enters
`jobs` and the payment instance enters `payment_instances`.  There is no
`await` between the two statements, so the pair is one atomic state
change. -/
def insertJobState (s : ServerState) (job_id : String) (job : Job) :
    ServerState :=
  { s with jobs := (job_id, job) :: s.jobs
           payment_instances := job_id :: s.payment_instances }

/-- `start_job` (main.py lines 145-303) as a state-passing function.
`job_id` and `identifier_from_purchaser` stand for the freshly generated
uuid4/cuid2 values and `createRequest` for the outcome of the adapter call
`payment.create_payment_request()` (line 222): `.error msg` models the
`except Exception` branch with `str(e) = msg` (classified at lines 295-299
into 502 or 500), `.ok` models success.  `start_status_monitoring`
(line 243) is a registration whose failures surface asynchronously, so it
has no outcome parameter here.  The returned pair is (HTTP response, new
server state). -/
def start_job (env : Env) (input_data : List (String × String))
    (job_id identifier_from_purchaser : String)
    (createRequest : Except String PaymentRequestData)
    (s : ServerState) :
    Except StartJobError StartJobResponse × ServerState :=
  let agent_identifier := pyStrip env.AGENT_IDENTIFIER
  if agent_identifier = "" ∨ agent_identifier = "REPLACE" then
    (.error .configAgentIdentifier, s)
  else
    let url_error := validate_url env.PAYMENT_SERVICE_URL "PAYMENT_SERVICE_URL"
    if ¬ url_error = "" then
      (.error (.configPaymentServiceUrl url_error), s)
    else if env.PAYMENT_API_KEY = "" then
      (.error .configPaymentApiKey, s)
    else if ¬ pyDictHas input_data "input_string" then
      (.error .badInputString, s)
    else
      match pyInt env.PAYMENT_AMOUNT with
      | none => (.error .configPaymentAmount, s)
      | some _ =>
        match createRequest with
        | .error e =>
          if containsSub e "Network error" ∨ containsSub (pyLower e) "payment"
          then (.error .upstreamUnavailable, s)
          else (.error .internalError, s)
        | .ok payment_request =>
          let payment_id := payment_request.blockchainIdentifier
          let s2 := insertJobState s job_id
            (newJob input_data payment_id identifier_from_purchaser)
          if env.SELLER_VKEY = "" then
            (.error .configSellerVkey, s2)
          else
            (.ok { job_id := job_id
                   payment_id := payment_id
                   identifierFromPurchaser := identifier_from_purchaser
                   network := env.NETWORK
                   sellerVkey := env.SELLER_VKEY
                   paymentType := "Web3CardanoV1"
                   blockchainIdentifier := payment_id
                   submitResultTime := payment_request.submitResultTime
                   unlockTime := payment_request.unlockTime
                   externalDisputeUnlockTime :=
                     payment_request.externalDisputeUnlockTime
                   agentIdentifier := agent_identifier
                   inputHash := payment_request.inputHash }, s2)

/-! ### get_status (main.py lines 350-382) -/

/-- Outcome of the adapter call `payment.check_payment_status()` inside
`get_status` (lines 362-371): `ok st` is a successful response whose
`data.status` field is `st` (absent keys make it `none`); `valueError` is a
raised `ValueError`; `otherError` any other exception. -/
inductive CheckOutcome where
  | ok (st : Option String)
  | valueError
  | otherError
deriving DecidableEq, Repr

/-- The only failure of `get_status`: 404 for an unknown job (line 356). -/
inductive StatusError where
  | notFound
deriving DecidableEq, Repr

/-- Response body of `/status` (lines 377-382). -/
structure StatusResponse where
  job_id : String
  status : JobStatus
  payment_status : Option String
  result : Option String
deriving DecidableEq, Repr

/-- `get_status` (main.py lines 350-382).  Unknown job: 404, state
untouched.  Known job with a live payment instance: best-effort refresh of
`payment_status` from `check` — a successful call stores the reported
status, a `ValueError` stores `"unknown"` (lines 366-368), any other
exception stores `"error"` (lines 369-371); the query then returns the
record regardless.  `result` in the response is `result.raw` when a result
object is stored, else `None` (lines 374-375). -/
def get_status (s : ServerState) (job_id : String) (check : CheckOutcome) :
    Except StatusError StatusResponse × ServerState :=
  match alookup s.jobs job_id with
  | none => (.error .notFound, s)
  | some job =>
    if smem s.payment_instances job_id then
      let job2 :=
        match check with
        | .ok st => { job with payment_status := st }
        | .valueError => { job with payment_status := some "unknown" }
        | .otherError => { job with payment_status := some "error" }
      let s2 := { s with jobs := aupdate s.jobs job_id (fun _ => job2) }
      (.ok { job_id := job_id
             status := job2.status
             payment_status := job2.payment_status
             result := job2.result.map (fun r => r.raw) }, s2)
    else
      (.ok { job_id := job_id
             status := job.status
             payment_status := job.payment_status
             result := job.result.map (fun r => r.raw) }, s)

/-! ### handle_payment_status (main.py lines 308-345) as atomic segments

The handler body has exactly two suspension points, `await
execute_agentic_task(...)` (line 319) and `await
payment_instances[job_id].complete_payment(...)` (line 325); everything
between consecutive suspension points runs atomically under the
single-threaded cooperative scheduler.  The `except` block (lines 337-345)
is synchronous.  The handler is therefore split into three atomic
segments, glued by the `HandlerPhase` continuation stored per job.
-/

/-- The `except Exception` block of `handle_payment_status`
(lines 337-345): set `status = "failed"`, store `str(e)` under the `error`
key, and if a payment instance is still registered, call its
`stop_status_monitoring` and delete it.  The handler then returns, so the
continuation is dropped. -/
def failJob (s : ServerState) (job_id : String) (msg : String) : ServerState :=
  let s1 := { s with
    jobs := aupdate s.jobs job_id
      (fun j => { j with status := .failed, error := some msg }) }
  let s2 :=
    if smem s1.payment_instances job_id then
      { s1 with stopCalls := s1.stopCalls ++ [job_id]
                payment_instances := sremove s1.payment_instances job_id }
    else s1
  { s2 with handlers := aerase s2.handlers job_id }

/-- The cleanup of the success path (lines 333-336): identical guarded
stop-and-delete, without touching the job record. -/
def cleanupMonitoring (s : ServerState) (job_id : String) : ServerState :=
  if smem s.payment_instances job_id then
    { s with stopCalls := s.stopCalls ++ [job_id]
             payment_instances := sremove s.payment_instances job_id }
  else s

/-- Lines 311-319 of `handle_payment_status`: set `status = "running"`,
read the stored input, and start the Work Executor (the `await` at
line 319 marks the end of the atomic segment). -/
def deliverState (s : ServerState) (job_id payment_id : String) : ServerState :=
  { s with
    jobs := aupdate s.jobs job_id (fun j => { j with status := .running })
    handlers := (job_id, .executing payment_id) :: s.handlers
    execCalls := s.execCalls ++ [job_id] }

/-- Line 325: the executor returned `r`; `payment_instances[job_id]` was
found, and `complete_payment` is initiated (the handler suspends on its
`await`). -/
def beginFinalizeState (s : ServerState) (job_id payment_id : String)
    (r : ServiceResult) : ServerState :=
  { s with
    handlers := (job_id, .finalizing payment_id r) :: aerase s.handlers job_id
    finalizeCalls := s.finalizeCalls ++ [job_id] }

/-- Lines 329-336: `complete_payment` returned; mark the job completed,
store the result, and run the guarded cleanup, all synchronously. -/
def completeState (s : ServerState) (job_id : String) (r : ServiceResult) :
    ServerState :=
  let s1 := { s with
    jobs := aupdate s.jobs job_id (fun j =>
      { j with status := .completed
               payment_status := some "completed"
               result := some r }) }
  let s2 := cleanupMonitoring s1 job_id
  { s2 with handlers := aerase s2.handlers job_id }

instance exceptDecEq {ε α : Type} [DecidableEq ε] [DecidableEq α] :
    DecidableEq (Except ε α) := fun a b =>
  match a, b with
  | .error e1, .error e2 =>
    if h : e1 = e2 then .isTrue (by rw [h])
    else .isFalse (by intro hh; cases hh; exact h rfl)
  | .error _, .ok _ => .isFalse (by intro hh; cases hh)
  | .ok _, .error _ => .isFalse (by intro hh; cases hh)
  | .ok a1, .ok a2 =>
    if h : a1 = a2 then .isTrue (by rw [h])
    else .isFalse (by intro hh; cases hh; exact h rfl)

/-- One atomic step of the system.  `startOk` is the state change of a
`start_job` call that reaches line 241 (fresh `job_id`); `deliver` is the
adapter invoking the payment callback (lines 237-238), running the handler
up to the executor `await` (lines 311-319); `execRet` resumes at line 319
with the executor's outcome (`.error msg` = raised exception with
`str(e) = msg`); `finalizeRet` resumes at line 325 with the outcome of
`complete_payment`; `query` is a `/status` request together with the
adapter outcome of its refresh. -/
inductive Event where
  | startOk (job_id payment_id identifier_from_purchaser : String)
      (input_data : List (String × String))
  | deliver (job_id payment_id : String)
  | execRet (job_id : String) (outcome : Except String ServiceResult)
  | finalizeRet (job_id : String) (outcome : Except String Unit)
  | query (job_id : String) (check : CheckOutcome)
deriving DecidableEq, Repr

/-- Apply one event; `none` when the event's precondition fails (an event
that cannot occur: a `startOk` under a colliding uuid, a callback for a job
that was never created, or a resumption with no matching suspended
handler).  A `deliver` is allowed for ANY stored job — the code has no
guard on the current status (line 314 assigns unconditionally) — but at
most one handler per job may be in flight. -/
def applyEvent (s : ServerState) (e : Event) : Option ServerState :=
  match e with
  | .startOk job_id payment_id ipid input_data =>
    match alookup s.jobs job_id with
    | some _ => none
    | none => some (insertJobState s job_id (newJob input_data payment_id ipid))
  | .deliver job_id payment_id =>
    match alookup s.jobs job_id, alookup s.handlers job_id with
    | some _, none => some (deliverState s job_id payment_id)
    | _, _ => none
  | .execRet job_id outcome =>
    match alookup s.handlers job_id with
    | some (.executing payment_id) =>
      match outcome with
      | .ok r =>
        -- line 325 evaluates payment_instances[job_id] before awaiting:
        -- a missing key raises KeyError synchronously into the except block
        if smem s.payment_instances job_id then
          some (beginFinalizeState s job_id payment_id r)
        else
          some (failJob s job_id ("KeyError: " ++ job_id))
      | .error msg => some (failJob s job_id msg)
    | _ => none
  | .finalizeRet job_id outcome =>
    match alookup s.handlers job_id with
    | some (.finalizing _ r) =>
      match outcome with
      | .ok _ => some (completeState s job_id r)
      | .error msg => some (failJob s job_id msg)
    | _ => none
  | .query job_id check => some (get_status s job_id check).2

/-- Run a list of events from a state. -/
def runEvents : ServerState → List Event → Option ServerState
  | s, [] => some s
  | s, e :: es =>
    match applyEvent s e with
    | some s2 => runEvents s2 es
    | none => none

/-- The job ids of the `deliver` events of a trace, in order. -/
def deliverTargets : List Event → List String
  | [] => []
  | .deliver job_id _ :: es => job_id :: deliverTargets es
  | _ :: es => deliverTargets es

/-- The adapter contract promises the completion callback is invoked at
most once per job (`start_monitoring ... invokes on_complete exactly
once`); traces satisfying it deliver no job id twice. -/
def AtMostOnceDelivery (es : List Event) : Prop :=
  snodup (deliverTargets es) = true

instance (es : List Event) : Decidable (AtMostOnceDelivery es) := by
  unfold AtMostOnceDelivery
  infer_instance

/-! ### The per-job lifecycle invariant

All observables of a single job: its store record, its count of live
monitoring handles, its in-flight handler continuation, and how often each
adapter call was made for it.
-/

structure JobObs where
  record : Option Job
  handleC : Nat
  handler : Option HandlerPhase
  execC : Nat
  stopC : Nat
  finC : Nat
deriving DecidableEq, Repr

def jobObs (s : ServerState) (j : String) : JobObs :=
  { record := alookup s.jobs j
    handleC := scount s.payment_instances j
    handler := alookup s.handlers j
    execC := scount s.execCalls j
    stopC := scount s.stopCalls j
    finC := scount s.finalizeCalls j }

/-- The lifecycle invariant of one job, phrased over its observables;
it holds in every state reached by a trace that delivers the payment
callback at most once per job (`runEvents_inv` below). -/
def JobInvObs (o : JobObs) : Prop :=
  match o.record with
  | none =>
    o.handleC = 0 ∧ o.handler = none ∧ o.execC = 0 ∧ o.stopC = 0 ∧ o.finC = 0
  | some job =>
    match job.status with
    | .awaiting_payment =>
      o.handleC = 1 ∧ o.handler = none ∧ o.execC = 0 ∧ o.stopC = 0 ∧
        o.finC = 0 ∧ job.result = none ∧ job.error = none
    | .running =>
      o.handleC = 1 ∧ o.execC = 1 ∧ o.stopC = 0 ∧ job.result = none ∧
        job.error = none ∧
        (match o.handler with
         | some (.executing _) => o.finC = 0
         | some (.finalizing _ _) => o.finC = 1
         | none => False)
    | .completed =>
      o.handleC = 0 ∧ o.handler = none ∧ o.execC = 1 ∧ o.stopC = 1 ∧
        o.finC = 1 ∧ job.result ≠ none ∧ job.error = none
    | .failed =>
      o.handleC = 0 ∧ o.handler = none ∧ o.execC = 1 ∧ o.stopC = 1 ∧
        job.result = none ∧ job.error ≠ none ∧ o.finC ≤ 1

def JobInv (s : ServerState) (j : String) : Prop := JobInvObs (jobObs s j)

theorem JobInv_init (j : String) : JobInv initState j := by
  simp [JobInv, JobInvObs, jobObs, initState, alookup, scount]

/-! Transport lemmas: the effect of each atomic segment on `jobObs`. -/

theorem jobObs_insert_self (s : ServerState) (jid : String) (job : Job) :
    jobObs (insertJobState s jid job) jid =
      { jobObs s jid with
          record := some job
          handleC := 1 + scount s.payment_instances jid } := by
  simp [jobObs, insertJobState, alookup, scount_cons]

theorem jobObs_insert_ne (s : ServerState) (jid : String) (job : Job)
    (j : String) (hne : ¬ jid = j) :
    jobObs (insertJobState s jid job) j = jobObs s j := by
  simp [jobObs, insertJobState, alookup, scount_cons, hne]

theorem jobObs_deliver_self (s : ServerState) (jid pid : String) :
    jobObs (deliverState s jid pid) jid =
      { jobObs s jid with
          record := (alookup s.jobs jid).map
            (fun job => { job with status := .running })
          handler := some (.executing pid)
          execC := scount s.execCalls jid + 1 } := by
  simp [jobObs, deliverState, alookup, alookup_aupdate_self, scount_append,
    scount_singleton]

theorem jobObs_deliver_ne (s : ServerState) (jid pid : String)
    (j : String) (hne : ¬ jid = j) :
    jobObs (deliverState s jid pid) j = jobObs s j := by
  simp [jobObs, deliverState, alookup, alookup_aupdate_ne _ _ _ _ hne,
    scount_append, scount_singleton, hne]

theorem jobObs_beginFinalize_self (s : ServerState) (jid pid : String)
    (r : ServiceResult) :
    jobObs (beginFinalizeState s jid pid r) jid =
      { jobObs s jid with
          handler := some (.finalizing pid r)
          finC := scount s.finalizeCalls jid + 1 } := by
  simp [jobObs, beginFinalizeState, alookup, scount_append, scount_singleton]

theorem jobObs_beginFinalize_ne (s : ServerState) (jid pid : String)
    (r : ServiceResult) (j : String) (hne : ¬ jid = j) :
    jobObs (beginFinalizeState s jid pid r) j = jobObs s j := by
  simp [jobObs, beginFinalizeState, alookup, hne,
    alookup_aerase_ne _ _ _ hne, scount_append, scount_singleton]

theorem jobObs_failJob_self_mem (s : ServerState) (jid msg : String)
    (hm : smem s.payment_instances jid = true) :
    jobObs (failJob s jid msg) jid =
      { jobObs s jid with
          record := (alookup s.jobs jid).map
            (fun job => { job with status := .failed, error := some msg })
          handleC := 0
          handler := none
          stopC := scount s.stopCalls jid + 1 } := by
  simp [jobObs, failJob, hm, alookup_aupdate_self, alookup_aerase_self,
    scount_sremove_self, scount_append, scount_singleton]

theorem jobObs_failJob_self_notmem (s : ServerState) (jid msg : String)
    (hm : ¬ smem s.payment_instances jid = true) :
    jobObs (failJob s jid msg) jid =
      { jobObs s jid with
          record := (alookup s.jobs jid).map
            (fun job => { job with status := .failed, error := some msg })
          handler := none } := by
  simp [jobObs, failJob, hm, alookup_aupdate_self, alookup_aerase_self]

theorem jobObs_failJob_ne (s : ServerState) (jid msg : String)
    (j : String) (hne : ¬ jid = j) :
    jobObs (failJob s jid msg) j = jobObs s j := by
  have hne2 : ¬ j = jid := fun hh => hne hh.symm
  by_cases hm : smem s.payment_instances jid = true
  · simp [jobObs, failJob, hm, alookup_aupdate_ne _ _ _ _ hne,
      alookup_aerase_ne _ _ _ hne, scount_sremove_ne _ _ _ hne,
      scount_append, scount_singleton, hne]
  · simp [jobObs, failJob, hm, alookup_aupdate_ne _ _ _ _ hne,
      alookup_aerase_ne _ _ _ hne]

theorem jobObs_complete_self_mem (s : ServerState) (jid : String)
    (r : ServiceResult) (hm : smem s.payment_instances jid = true) :
    jobObs (completeState s jid r) jid =
      { jobObs s jid with
          record := (alookup s.jobs jid).map
            (fun job => { job with status := .completed
                                   payment_status := some "completed"
                                   result := some r })
          handleC := 0
          handler := none
          stopC := scount s.stopCalls jid + 1 } := by
  simp [jobObs, completeState, cleanupMonitoring, hm, alookup_aupdate_self,
    alookup_aerase_self, scount_sremove_self, scount_append, scount_singleton]

theorem jobObs_complete_ne (s : ServerState) (jid : String)
    (r : ServiceResult) (j : String) (hne : ¬ jid = j) :
    jobObs (completeState s jid r) j = jobObs s j := by
  by_cases hm : smem s.payment_instances jid = true
  · simp [jobObs, completeState, cleanupMonitoring, hm,
      alookup_aupdate_ne _ _ _ _ hne, alookup_aerase_ne _ _ _ hne,
      scount_sremove_ne _ _ _ hne, scount_append, scount_singleton, hne]
  · simp [jobObs, completeState, cleanupMonitoring, hm,
      alookup_aupdate_ne _ _ _ _ hne, alookup_aerase_ne _ _ _ hne]

theorem jobObs_queryUpdate_self (s : ServerState) (jid : String) (job2 : Job) :
    jobObs { s with jobs := aupdate s.jobs jid (fun _ => job2) } jid =
      { jobObs s jid with
          record := (alookup s.jobs jid).map (fun _ => job2) } := by
  simp [jobObs, alookup_aupdate_self]

theorem jobObs_queryUpdate_ne (s : ServerState) (jid : String) (job2 : Job)
    (j : String) (hne : ¬ jid = j) :
    jobObs { s with jobs := aupdate s.jobs jid (fun _ => job2) } j =
      jobObs s j := by
  simp [jobObs, alookup_aupdate_ne _ _ _ _ hne]

/-- Each event appends to the executor-invocation log exactly the job ids
of its `deliver` events: the Work Executor is started in the `deliver`
segment (line 319) and nowhere else. -/
theorem applyEvent_execCalls (s0 : ServerState) (e : Event) (s1 : ServerState)
    (h : applyEvent s0 e = some s1) :
    s1.execCalls = s0.execCalls ++ deliverTargets [e] := by
  cases e with
  | startOk jid pid ip inp =>
    simp only [applyEvent] at h
    split at h
    · cases h
    · cases h
      simp [insertJobState, deliverTargets]
  | deliver jid pid =>
    simp only [applyEvent] at h
    split at h
    · cases h
      simp [deliverState, deliverTargets]
    · cases h
  | execRet jid outcome =>
    simp only [applyEvent] at h
    split at h
    · cases outcome with
      | ok r =>
        simp only [] at h
        split at h
        · cases h
          simp [beginFinalizeState, deliverTargets]
        · cases h
          simp [failJob, deliverTargets]
          split <;> simp
      | error msg =>
        cases h
        simp [failJob, deliverTargets]
        split <;> simp
    · cases h
  | finalizeRet jid outcome =>
    simp only [applyEvent] at h
    split at h
    · cases outcome with
      | ok u =>
        cases h
        simp [completeState, cleanupMonitoring, deliverTargets]
        split <;> simp
      | error msg =>
        cases h
        simp [failJob, deliverTargets]
        split <;> simp
    · cases h
  | query jid check =>
    simp only [applyEvent] at h
    cases h
    simp only [get_status]
    split
    · simp [deliverTargets]
    · split <;> simp [deliverTargets]

/-- In an invariant state, a suspended handler pins its job to `running`
and fixes all its counters. -/
theorem handler_running (s : ServerState) (jid : String) (ph : HandlerPhase)
    (hInv : JobInv s jid) (heq : alookup s.handlers jid = some ph) :
    ∃ job, alookup s.jobs jid = some job ∧ job.status = .running ∧
      scount s.payment_instances jid = 1 ∧ scount s.execCalls jid = 1 ∧
      scount s.stopCalls jid = 0 ∧ job.result = none ∧ job.error = none ∧
      scount s.finalizeCalls jid =
        (match ph with | .executing _ => 0 | .finalizing _ _ => 1) := by
  have h := hInv
  unfold JobInv JobInvObs jobObs at h
  rw [heq] at h
  cases hrec : alookup s.jobs jid with
  | none =>
    rw [hrec] at h
    dsimp only at h
    exact absurd h.2.1 (by simp)
  | some job =>
    rw [hrec] at h
    dsimp only at h
    cases hstat : job.status with
    | awaiting_payment =>
      rw [hstat] at h
      dsimp only at h
      exact absurd h.2.1 (by simp)
    | running =>
      rw [hstat] at h
      dsimp only at h
      obtain ⟨h1, h2, h3, h4, h5, h6⟩ := h
      refine ⟨job, rfl, hstat, h1, h2, h3, h4, h5, ?_⟩
      cases ph
      · simpa using h6
      · simpa using h6
    | completed =>
      rw [hstat] at h
      dsimp only at h
      exact absurd h.2.1 (by simp)
    | failed =>
      rw [hstat] at h
      dsimp only at h
      exact absurd h.2.1 (by simp)

/-- `JobInvObs` never inspects `payment_status`: replacing the record by one
agreeing on `status`, `result` and `error` preserves it. -/
theorem JobInvObs_payment_status_irrelevant (o : JobObs) (job job2 : Job)
    (hrec : o.record = some job)
    (hstat : job2.status = job.status) (hres : job2.result = job.result)
    (herr : job2.error = job.error)
    (h : JobInvObs o) : JobInvObs { o with record := some job2 } := by
  unfold JobInvObs at h ⊢
  rw [hrec] at h
  dsimp only at h ⊢
  rw [hstat, hres, herr]
  exact h

/-- A `/status` query preserves the per-job invariant: its only mutation is
the cached `payment_status` of the queried job (main.py lines 360-371). -/
theorem get_status_JobInv (s0 : ServerState) (jid : String)
    (check : CheckOutcome) (hInv : ∀ j, JobInv s0 j) (j : String) :
    JobInv (get_status s0 jid check).2 j := by
  cases hrec : alookup s0.jobs jid with
  | none =>
    simp only [get_status, hrec]
    exact hInv j
  | some job =>
    by_cases hm : smem s0.payment_instances jid = true
    · cases check with
      | ok st =>
        simp only [get_status, hrec, hm, if_true]
        by_cases hj : jid = j
        · subst hj
          unfold JobInv
          rw [jobObs_queryUpdate_self, hrec]
          simp only [Option.map_some]
          exact JobInvObs_payment_status_irrelevant (jobObs s0 jid) job _
            (by simp [jobObs, hrec]) rfl rfl rfl (hInv jid)
        · unfold JobInv
          rw [jobObs_queryUpdate_ne _ _ _ _ hj]
          exact hInv j
      | valueError =>
        simp only [get_status, hrec, hm, if_true]
        by_cases hj : jid = j
        · subst hj
          unfold JobInv
          rw [jobObs_queryUpdate_self, hrec]
          simp only [Option.map_some]
          exact JobInvObs_payment_status_irrelevant (jobObs s0 jid) job _
            (by simp [jobObs, hrec]) rfl rfl rfl (hInv jid)
        · unfold JobInv
          rw [jobObs_queryUpdate_ne _ _ _ _ hj]
          exact hInv j
      | otherError =>
        simp only [get_status, hrec, hm, if_true]
        by_cases hj : jid = j
        · subst hj
          unfold JobInv
          rw [jobObs_queryUpdate_self, hrec]
          simp only [Option.map_some]
          exact JobInvObs_payment_status_irrelevant (jobObs s0 jid) job _
            (by simp [jobObs, hrec]) rfl rfl rfl (hInv jid)
        · unfold JobInv
          rw [jobObs_queryUpdate_ne _ _ _ _ hj]
          exact hInv j
    · simp only [get_status, hrec, hm, if_false]
      exact hInv j

/-- One step preserves the per-job invariant, provided a `deliver` only
hits a job whose executor has not been started yet (the at-most-once
callback contract). -/
theorem applyEvent_JobInv (s0 : ServerState) (e : Event) (s1 : ServerState)
    (hInv : ∀ j, JobInv s0 j)
    (hdel : ∀ jid pid, e = .deliver jid pid → scount s0.execCalls jid = 0)
    (happly : applyEvent s0 e = some s1) (j : String) : JobInv s1 j := by
  cases e with
  | startOk jid pid ip inp =>
    simp only [applyEvent] at happly
    cases heq : alookup s0.jobs jid with
    | some job => simp [heq] at happly
    | none =>
      simp only [heq, Option.some.injEq] at happly
      subst happly
      by_cases hj : jid = j
      · subst hj
        have h0 := hInv jid
        unfold JobInv JobInvObs jobObs at h0
        rw [heq] at h0
        dsimp only at h0
        obtain ⟨hc, hh, he, hs, hf⟩ := h0
        unfold JobInv
        rw [jobObs_insert_self]
        simp [JobInvObs, jobObs, newJob, hc, hh, he, hs, hf]
      · unfold JobInv
        rw [jobObs_insert_ne _ _ _ _ hj]
        exact hInv j
  | deliver jid pid =>
    simp only [applyEvent] at happly
    cases heqj : alookup s0.jobs jid with
    | none => simp [heqj] at happly
    | some job =>
      cases heqh : alookup s0.handlers jid with
      | some ph => simp [heqj, heqh] at happly
      | none =>
        simp only [heqj, heqh, Option.some.injEq] at happly
        subst happly
        have hexec0 : scount s0.execCalls jid = 0 := hdel jid pid rfl
        have h0 := hInv jid
        unfold JobInv JobInvObs jobObs at h0
        rw [heqj, heqh] at h0
        dsimp only at h0
        cases hstat : job.status with
        | awaiting_payment =>
          rw [hstat] at h0
          dsimp only at h0
          obtain ⟨hc, he, hs, hf, hr, herr⟩ := h0
          by_cases hj : jid = j
          · subst hj
            unfold JobInv
            rw [jobObs_deliver_self]
            simp [JobInvObs, jobObs, heqj, heqh, hstat, hc, he, hs, hf, hr,
              herr, hexec0]
          · unfold JobInv
            rw [jobObs_deliver_ne _ _ _ _ hj]
            exact hInv j
        | running =>
          rw [hstat] at h0
          dsimp only at h0
          exact h0.2.2.2.2.2.elim
        | completed =>
          rw [hstat] at h0
          dsimp only at h0
          rw [hexec0] at h0
          exact absurd h0.2.2.1 (by decide)
        | failed =>
          rw [hstat] at h0
          dsimp only at h0
          rw [hexec0] at h0
          exact absurd h0.2.2.1 (by decide)
  | execRet jid outcome =>
    simp only [applyEvent] at happly
    cases heqh : alookup s0.handlers jid with
    | none => simp [heqh] at happly
    | some ph =>
      cases ph with
      | finalizing pid r => simp [heqh] at happly
      | executing pid =>
        obtain ⟨job, hrec, hstat, hc, he, hs, hr, herr, hf⟩ :=
          handler_running s0 jid (.executing pid) (hInv jid) heqh
        simp only at hf
        have hm : smem s0.payment_instances jid = true := by
          rw [smem_iff_scount_pos, hc]
          decide
        cases outcome with
        | ok r2 =>
          simp only [heqh, hm, if_true, Option.some.injEq] at happly
          subst happly
          by_cases hj : jid = j
          · subst hj
            unfold JobInv
            rw [jobObs_beginFinalize_self]
            simp [JobInvObs, jobObs, hrec, hstat, hc, he, hs, hr, herr, hf]
          · unfold JobInv
            rw [jobObs_beginFinalize_ne _ _ _ _ _ hj]
            exact hInv j
        | error msg =>
          simp only [heqh, Option.some.injEq] at happly
          subst happly
          by_cases hj : jid = j
          · subst hj
            unfold JobInv
            rw [jobObs_failJob_self_mem _ _ _ hm]
            simp [JobInvObs, jobObs, hrec, hstat, hc, he, hs, hr, herr, hf]
          · unfold JobInv
            rw [jobObs_failJob_ne _ _ _ _ hj]
            exact hInv j
  | finalizeRet jid outcome =>
    simp only [applyEvent] at happly
    cases heqh : alookup s0.handlers jid with
    | none => simp [heqh] at happly
    | some ph =>
      cases ph with
      | executing pid => simp [heqh] at happly
      | finalizing pid r =>
        obtain ⟨job, hrec, hstat, hc, he, hs, hr, herr, hf⟩ :=
          handler_running s0 jid (.finalizing pid r) (hInv jid) heqh
        simp only at hf
        have hm : smem s0.payment_instances jid = true := by
          rw [smem_iff_scount_pos, hc]
          decide
        cases outcome with
        | ok u =>
          simp only [heqh, Option.some.injEq] at happly
          subst happly
          by_cases hj : jid = j
          · subst hj
            unfold JobInv
            rw [jobObs_complete_self_mem _ _ _ hm]
            simp [JobInvObs, jobObs, hrec, hstat, hc, he, hs, hr, herr, hf]
          · unfold JobInv
            rw [jobObs_complete_ne _ _ _ _ hj]
            exact hInv j
        | error msg =>
          simp only [heqh, Option.some.injEq] at happly
          subst happly
          by_cases hj : jid = j
          · subst hj
            unfold JobInv
            rw [jobObs_failJob_self_mem _ _ _ hm]
            simp [JobInvObs, jobObs, hrec, hstat, hc, he, hs, hr, herr, hf]
          · unfold JobInv
            rw [jobObs_failJob_ne _ _ _ _ hj]
            exact hInv j
  | query jid check =>
    simp only [applyEvent, Option.some.injEq] at happly
    subst happly
    exact get_status_JobInv s0 jid check hInv j

theorem deliverTargets_cons (e : Event) (rest : List Event) :
    deliverTargets (e :: rest) = deliverTargets [e] ++ deliverTargets rest := by
  cases e <;> simp [deliverTargets]

/-- Master invariant: every state reached from an invariant state by a
trace whose deliveries stay within the at-most-once budget satisfies the
per-job invariant. -/
theorem runEvents_inv (es : List Event) (s0 : ServerState)
    (hInv : ∀ j, JobInv s0 j)
    (hc : ∀ j, scount s0.execCalls j + scount (deliverTargets es) j ≤ 1)
    (s : ServerState) (hrun : runEvents s0 es = some s) (j : String) :
    JobInv s j := by
  induction es generalizing s0 with
  | nil =>
    simp only [runEvents, Option.some.injEq] at hrun
    subst hrun
    exact hInv j
  | cons e rest ih =>
    simp only [runEvents] at hrun
    cases happly : applyEvent s0 e with
    | none =>
      rw [happly] at hrun
      cases hrun
    | some s1 =>
      rw [happly] at hrun
      have hdel : ∀ jid pid, e = Event.deliver jid pid →
          scount s0.execCalls jid = 0 := by
        intro jid pid hE
        have h1 := hc jid
        rw [hE, deliverTargets_cons, scount_append] at h1
        have h2 : scount (deliverTargets [Event.deliver jid pid]) jid = 1 := by
          simp [deliverTargets, scount_singleton]
        omega
      have hInv1 := applyEvent_JobInv s0 e s1 hInv hdel happly
      have hec := applyEvent_execCalls s0 e s1 happly
      refine ih s1 hInv1 ?_ hrun
      intro j2
      have h1 := hc j2
      rw [deliverTargets_cons, scount_append] at h1
      rw [hec, scount_append]
      omega

/-- Master invariant from the initial state, under the adapter's
at-most-once callback contract. -/
theorem runEvents_inv_init (es : List Event) (hn : AtMostOnceDelivery es)
    (s : ServerState) (hrun : runEvents initState es = some s) (j : String) :
    JobInv s j := by
  refine runEvents_inv es initState (fun j2 => JobInv_init j2) ?_ s hrun j
  intro j2
  have h1 := snodup_count_le_one _ hn j2
  have h2 : scount initState.execCalls j2 = 0 := by simp [initState, scount]
  omega

/-- Over a whole trace, the executor-invocation log is exactly the list of
delivered job ids. -/
theorem runEvents_execCalls (es : List Event) (s0 s : ServerState)
    (hrun : runEvents s0 es = some s) :
    s.execCalls = s0.execCalls ++ deliverTargets es := by
  induction es generalizing s0 with
  | nil =>
    simp only [runEvents, Option.some.injEq] at hrun
    subst hrun
    simp [deliverTargets]
  | cons e rest ih =>
    simp only [runEvents] at hrun
    cases happly : applyEvent s0 e with
    | none =>
      rw [happly] at hrun
      cases hrun
    | some s1 =>
      rw [happly] at hrun
      have hec := applyEvent_execCalls s0 e s1 happly
      rw [ih s1 hrun, hec, deliverTargets_cons e rest, List.append_assoc]

/-- Splitting a run at a list append. -/
theorem runEvents_append (es1 es2 : List Event) (s0 : ServerState) :
    runEvents s0 (es1 ++ es2) =
      match runEvents s0 es1 with
      | some s1 => runEvents s1 es2
      | none => none := by
  induction es1 generalizing s0 with
  | nil => simp [runEvents]
  | cons e rest ih =>
    simp only [List.cons_append, runEvents]
    cases applyEvent s0 e with
    | none => rfl
    | some s1 => exact ih s1

theorem deliverTargets_append (es1 es2 : List Event) :
    deliverTargets (es1 ++ es2) = deliverTargets es1 ++ deliverTargets es2 := by
  induction es1 with
  | nil => simp [deliverTargets]
  | cons e rest ih =>
    rw [List.cons_append, deliverTargets_cons, deliverTargets_cons e rest,
      List.append_assoc, ih]

/-- The observables of one job that no later event may change once its
handler is gone and no further delivery addresses it: the record's
`status`/`result`/`error` (a query may still refresh `payment_status`),
the handler slot, and the finalize/handle/stop accounting. -/
def frozenObs (s : ServerState) (jid : String) :
    Option (JobStatus × Option ServiceResult × Option String)
      × Option HandlerPhase × Nat × Nat × Nat :=
  ((alookup s.jobs jid).map (fun job => (job.status, job.result, job.error)),
   alookup s.handlers jid,
   scount s.finalizeCalls jid,
   scount s.payment_instances jid,
   scount s.stopCalls jid)

theorem frozenObs_of_jobObs (s1 s0 : ServerState) (jid : String)
    (h : jobObs s1 jid = jobObs s0 jid) : frozenObs s1 jid = frozenObs s0 jid := by
  have h1 := congrArg JobObs.record h
  have h2 := congrArg JobObs.handler h
  have h3 := congrArg JobObs.finC h
  have h4 := congrArg JobObs.handleC h
  have h5 := congrArg JobObs.stopC h
  simp only [jobObs] at h1 h2 h3 h4 h5
  simp [frozenObs, h1, h2, h3, h4, h5]

theorem frozen_carries (s1 s0 : ServerState) (jid : String)
    (hfro : frozenObs s1 jid = frozenObs s0 jid)
    (hh : alookup s0.handlers jid = none)
    (hex : ¬ alookup s0.jobs jid = none) :
    alookup s1.handlers jid = none ∧ ¬ alookup s1.jobs jid = none := by
  have h1 := congrArg (fun t => t.1) hfro
  have h2 := congrArg (fun t => t.2.1) hfro
  simp only [frozenObs] at h1 h2
  refine ⟨by rw [h2]; exact hh, ?_⟩
  intro hE
  rw [hE] at h1
  cases hO : alookup s0.jobs jid with
  | none => exact hex hO
  | some job =>
    rw [hO] at h1
    simp at h1

/-- A `/status` query never changes the frozen observables of any job. -/
theorem frozenObs_get_status (s : ServerState) (jid2 : String)
    (check : CheckOutcome) (jid : String) :
    frozenObs (get_status s jid2 check).2 jid = frozenObs s jid := by
  cases hrec : alookup s.jobs jid2 with
  | none => simp [get_status, hrec]
  | some job =>
    by_cases hm : smem s.payment_instances jid2 = true
    · cases check with
      | ok st =>
        simp only [get_status, hrec, hm, if_true]
        by_cases hj : jid2 = jid
        · subst hj
          simp [frozenObs, alookup_aupdate_self, hrec]
        · simp [frozenObs, alookup_aupdate_ne _ _ _ _ hj]
      | valueError =>
        simp only [get_status, hrec, hm, if_true]
        by_cases hj : jid2 = jid
        · subst hj
          simp [frozenObs, alookup_aupdate_self, hrec]
        · simp [frozenObs, alookup_aupdate_ne _ _ _ _ hj]
      | otherError =>
        simp only [get_status, hrec, hm, if_true]
        by_cases hj : jid2 = jid
        · subst hj
          simp [frozenObs, alookup_aupdate_self, hrec]
        · simp [frozenObs, alookup_aupdate_ne _ _ _ _ hj]
    · simp [get_status, hrec, hm]

/-- Once a job has no in-flight handler and no further delivery addresses
it, the rest of the trace leaves its frozen observables untouched. -/
theorem no_deliver_frozen (es : List Event) (s0 s : ServerState) (jid : String)
    (hh : alookup s0.handlers jid = none)
    (hex : ¬ alookup s0.jobs jid = none)
    (hd : scount (deliverTargets es) jid = 0)
    (hrun : runEvents s0 es = some s) :
    frozenObs s jid = frozenObs s0 jid := by
  induction es generalizing s0 with
  | nil =>
    simp only [runEvents, Option.some.injEq] at hrun
    subst hrun
    rfl
  | cons e rest ih =>
    simp only [runEvents] at hrun
    cases happly : applyEvent s0 e with
    | none =>
      rw [happly] at hrun
      cases hrun
    | some s1 =>
      rw [happly] at hrun
      have hdrest : scount (deliverTargets rest) jid = 0 := by
        rw [deliverTargets_cons, scount_append] at hd
        omega
      have hstep : frozenObs s1 jid = frozenObs s0 jid := by
        cases e with
        | startOk jid2 pid ip inp =>
          cases heq : alookup s0.jobs jid2 with
          | some job => simp [applyEvent, heq] at happly
          | none =>
            simp only [applyEvent, heq, Option.some.injEq] at happly
            subst happly
            have hne : ¬ jid2 = jid := by
              intro hE
              rw [hE] at heq
              exact hex heq
            exact frozenObs_of_jobObs _ _ _ (jobObs_insert_ne _ _ _ _ hne)
        | deliver jid2 pid =>
          have hne : ¬ jid2 = jid := by
            intro hE
            rw [deliverTargets_cons, scount_append] at hd
            simp [deliverTargets, scount_singleton, hE] at hd
          cases heqj : alookup s0.jobs jid2 with
          | none => simp [applyEvent, heqj] at happly
          | some job =>
            cases heqh : alookup s0.handlers jid2 with
            | some ph => simp [applyEvent, heqj, heqh] at happly
            | none =>
              simp only [applyEvent, heqj, heqh, Option.some.injEq] at happly
              subst happly
              exact frozenObs_of_jobObs _ _ _ (jobObs_deliver_ne _ _ _ _ hne)
        | execRet jid2 outcome =>
          cases heqh : alookup s0.handlers jid2 with
          | none => simp [applyEvent, heqh] at happly
          | some ph =>
            have hne : ¬ jid2 = jid := by
              intro hE
              rw [hE] at heqh
              rw [heqh] at hh
              cases hh
            cases ph with
            | finalizing pid r => simp [applyEvent, heqh] at happly
            | executing pid =>
              cases outcome with
              | ok r2 =>
                by_cases hm : smem s0.payment_instances jid2 = true
                · simp only [applyEvent, heqh, hm, if_true,
                    Option.some.injEq] at happly
                  subst happly
                  exact frozenObs_of_jobObs _ _ _
                    (jobObs_beginFinalize_ne _ _ _ _ _ hne)
                · simp only [applyEvent, heqh] at happly
                  rw [if_neg hm] at happly
                  simp only [Option.some.injEq] at happly
                  subst happly
                  exact frozenObs_of_jobObs _ _ _
                    (jobObs_failJob_ne _ _ _ _ hne)
              | error msg =>
                simp only [applyEvent, heqh, Option.some.injEq] at happly
                subst happly
                exact frozenObs_of_jobObs _ _ _
                  (jobObs_failJob_ne _ _ _ _ hne)
        | finalizeRet jid2 outcome =>
          cases heqh : alookup s0.handlers jid2 with
          | none => simp [applyEvent, heqh] at happly
          | some ph =>
            have hne : ¬ jid2 = jid := by
              intro hE
              rw [hE] at heqh
              rw [heqh] at hh
              cases hh
            cases ph with
            | executing pid => simp [applyEvent, heqh] at happly
            | finalizing pid r =>
              cases outcome with
              | ok u =>
                simp only [applyEvent, heqh, Option.some.injEq] at happly
                subst happly
                exact frozenObs_of_jobObs _ _ _
                  (jobObs_complete_ne _ _ _ _ hne)
              | error msg =>
                simp only [applyEvent, heqh, Option.some.injEq] at happly
                subst happly
                exact frozenObs_of_jobObs _ _ _
                  (jobObs_failJob_ne _ _ _ _ hne)
        | query jid2 check =>
          simp only [applyEvent, Option.some.injEq] at happly
          subst happly
          exact frozenObs_get_status s0 jid2 check jid
      obtain ⟨hh1, hex1⟩ := frozen_carries s1 s0 jid hstep hh hex
      rw [← hstep]
      exact ih s1 hh1 hex1 hdrest hrun

/-! ### Claim theorems -/

/-- C9: the sample-executor scenario.  Creating a job with input
`input_string = "Hello"` and delivering the payment-confirmation callback
(executor and `complete_payment` both succeeding, as in the scenario)
leaves the job with `status = completed`, `payment_status = completed`,
and the stored result is exactly the executor's output for `"Hello"`;
that output's `raw` value is the character-wise reversal `"olleH"`, and a
subsequent `/status` query reports it. -/
theorem C9_hello_scenario :
    ((runEvents initState
      [Event.startOk "j1" "p1" "c1" [("input_string", "Hello")],
       Event.deliver "j1" "p1",
       Event.execRet "j1"
         (Except.ok (execute_agentic_task [("input_string", "Hello")])),
       Event.finalizeRet "j1" (Except.ok ())]).map
      (fun s => (alookup s.jobs "j1").map
        (fun job => (job.status, job.payment_status, job.result)))
    = some (some (JobStatus.completed, some "completed",
        some (execute_agentic_task [("input_string", "Hello")])))) ∧
    (execute_agentic_task [("input_string", "Hello")]).raw = "olleH" ∧
    (execute_agentic_task [("input_string", "Hello")]).reversed_text =
      String.mk ("Hello".data.reverse) ∧
    ((runEvents initState
      [Event.startOk "j1" "p1" "c1" [("input_string", "Hello")],
       Event.deliver "j1" "p1",
       Event.execRet "j1"
         (Except.ok (execute_agentic_task [("input_string", "Hello")])),
       Event.finalizeRet "j1" (Except.ok ())]).map
      (fun s => (get_status s "j1" (CheckOutcome.ok (some "completed"))).1)
    = some (Except.ok
        { job_id := "j1"
          status := JobStatus.completed
          payment_status := some "completed"
          result := some "olleH" })) := by
  decide

/-- C10: the availability probe returns `"available"` with the fixed
operational message in every server state, in particular when the startup
environment validation failed (the server starts regardless, main.py
lines 82-85), so availability reflects nothing about configuration
health. -/
theorem C10_availability_ignores_config (env : Env)
    (server_start_time current_time : Nat)
    (_hfail : validate_environment env = false) :
    check_availability server_start_time current_time =
      { status := "available"
        uptime := current_time - server_start_time
        message := "Server operational." } := rfl

/-- Witness for C10 at a concrete misconfigured environment. -/
theorem C10_witness :
    validate_environment
      { AGENT_IDENTIFIER := ""
        PAYMENT_SERVICE_URL := "not-a-url"
        PAYMENT_API_KEY := ""
        NETWORK := "preview"
        SELLER_VKEY := ""
        PAYMENT_AMOUNT := "1000000" } = false ∧
    check_availability 100 160 =
      { status := "available", uptime := 60, message := "Server operational." } :=
  ⟨by decide, C10_availability_ignores_config
    { AGENT_IDENTIFIER := ""
      PAYMENT_SERVICE_URL := "not-a-url"
      PAYMENT_API_KEY := ""
      NETWORK := "preview"
      SELLER_VKEY := ""
      PAYMENT_AMOUNT := "1000000" } 100 160 (by decide)⟩

/-- C1 (code divergence): delivering the payment-confirmation callback a
second time for an already-completed job re-runs the Work Executor — the
handler has no guard on the current status (main.py line 314 assigns
unconditionally) — so the executor-invocation count reaches 2 and the job,
`completed` before redelivery, ends up `failed` (the `KeyError` from the
already-deleted payment instance lands in the except block). -/
theorem C1_redelivery_double_execution :
    (runEvents initState
      [Event.startOk "j1" "p1" "c1" [("input_string", "Hello")],
       Event.deliver "j1" "p1",
       Event.execRet "j1"
         (Except.ok (execute_agentic_task [("input_string", "Hello")])),
       Event.finalizeRet "j1" (Except.ok ()),
       Event.deliver "j1" "p1",
       Event.execRet "j1"
         (Except.ok (execute_agentic_task [("input_string", "Hello")]))]).map
      (fun s => (scount s.execCalls "j1", (alookup s.jobs "j1").map Job.status))
    = some (2, some JobStatus.failed) := by
  decide

/-- C3 (code divergence): a redelivered payment callback moves a job that
already reached the terminal status `completed` back to `running` —
`handle_payment_status` assigns `status = "running"` with no guard
(main.py line 314). -/
theorem C3_terminal_state_left :
    ((runEvents initState
      [Event.startOk "j1" "p1" "c1" [("input_string", "Hello")],
       Event.deliver "j1" "p1",
       Event.execRet "j1"
         (Except.ok (execute_agentic_task [("input_string", "Hello")])),
       Event.finalizeRet "j1" (Except.ok ())]).map
      (fun s => (alookup s.jobs "j1").map Job.status)
    = some (some JobStatus.completed)) ∧
    ((runEvents initState
      [Event.startOk "j1" "p1" "c1" [("input_string", "Hello")],
       Event.deliver "j1" "p1",
       Event.execRet "j1"
         (Except.ok (execute_agentic_task [("input_string", "Hello")])),
       Event.finalizeRet "j1" (Except.ok ()),
       Event.deliver "j1" "p1"]).map
      (fun s => (alookup s.jobs "j1").map Job.status)
    = some (some JobStatus.running)) := by
  decide

/-- C8 counterexample: directly after the callback segment that sets
`status = "running"` (a state observable by a `/status` query, since the
handler is suspended at the executor `await`), the stored `payment_status`
is still `"pending"`. -/
theorem C8_counterexample :
    (runEvents initState
      [Event.startOk "j1" "p1" "c1" [("input_string", "Hi")],
       Event.deliver "j1" "p1"]).map
      (fun s => (alookup s.jobs "j1").map
        (fun job => (job.status, job.payment_status)))
    = some (some (JobStatus.running, some "pending")) := by
  decide

/-- C8 (amended): the transition to `running` is not atomic with any
advance of `payment_status` — the callback segment that sets
`status = "running"` (main.py lines 311-319) leaves the stored
`payment_status` exactly as it was (still `"pending"` when no refresh
intervened); `payment_status` advances to `"completed"` only together with
`status = "completed"` at completion. -/
theorem C8_running_keeps_payment_status (s : ServerState)
    (job_id payment_id : String) (s2 : ServerState)
    (h : applyEvent s (Event.deliver job_id payment_id) = some s2) :
    (alookup s2.jobs job_id).map Job.payment_status =
      (alookup s.jobs job_id).map Job.payment_status ∧
    (alookup s2.jobs job_id).map Job.status =
      (alookup s.jobs job_id).map (fun _ => JobStatus.running) := by
  simp only [applyEvent] at h
  cases heqj : alookup s.jobs job_id with
  | none => simp [heqj] at h
  | some job =>
    cases heqh : alookup s.handlers job_id with
    | some ph => simp [heqj, heqh] at h
    | none =>
      simp only [heqj, heqh, Option.some.injEq] at h
      subst h
      simp [deliverState, alookup_aupdate_self, heqj]

/-- Witness for C8 at a concrete state: a freshly created job receiving
its callback. -/
theorem C8_witness :
    applyEvent (insertJobState initState "j" (newJob [] "p" "c"))
        (Event.deliver "j" "p") =
      some (deliverState (insertJobState initState "j" (newJob [] "p" "c"))
        "j" "p") ∧
    ((alookup (deliverState (insertJobState initState "j" (newJob [] "p" "c"))
        "j" "p").jobs "j").map Job.payment_status =
      (alookup (insertJobState initState "j"
        (newJob [] "p" "c")).jobs "j").map Job.payment_status ∧
    (alookup (deliverState (insertJobState initState "j" (newJob [] "p" "c"))
        "j" "p").jobs "j").map Job.status =
      (alookup (insertJobState initState "j"
        (newJob [] "p" "c")).jobs "j").map (fun _ => JobStatus.running)) :=
  ⟨by decide, C8_running_keeps_payment_status _ "j" "p" _ (by decide)⟩

/-- C2 counterexample: after an executor failure the job is terminal
(`failed`) yet `result` is absent — the error is stored in the separate
`error` key (main.py line 340), so "`result` is present iff `status` is
terminal" fails on the `failed` side. -/
theorem C2_counterexample :
    (runEvents initState
      [Event.startOk "j1" "p1" "c1" [("input_string", "Hi")],
       Event.deliver "j1" "p1",
       Event.execRet "j1" (Except.error "executor failure")]).map
      (fun s => (alookup s.jobs "j1").map
        (fun job => (job.status, job.result, job.error)))
    = some (some (JobStatus.failed, none, some "executor failure")) := by
  decide

/-- C2 (amended): in every state reached by operations whose payment
callback is delivered at most once per job, a job's `result` is present if
and only if its `status` is `completed`; a `failed` job keeps
`result = None` and carries its error description in the separate `error`
key instead. -/
theorem C2_result_iff_completed (es : List Event) (s : ServerState)
    (j : String) (job : Job)
    (hn : AtMostOnceDelivery es)
    (hrun : runEvents initState es = some s)
    (hj : alookup s.jobs j = some job) :
    (job.result ≠ none ↔ job.status = JobStatus.completed) ∧
      (job.status = JobStatus.failed → job.result = none ∧ job.error ≠ none) := by
  have hInv := runEvents_inv_init es hn s hrun j
  unfold JobInv JobInvObs jobObs at hInv
  rw [hj] at hInv
  dsimp only at hInv
  cases hstat : job.status with
  | awaiting_payment =>
    rw [hstat] at hInv
    dsimp only at hInv
    obtain ⟨-, -, -, -, -, hr, -⟩ := hInv
    simp [hstat, hr]
  | running =>
    rw [hstat] at hInv
    dsimp only at hInv
    obtain ⟨-, -, -, hr, -⟩ := hInv
    simp [hstat, hr]
  | completed =>
    rw [hstat] at hInv
    dsimp only at hInv
    obtain ⟨-, -, -, -, -, hr, -⟩ := hInv
    simp [hstat, hr]
  | failed =>
    rw [hstat] at hInv
    dsimp only at hInv
    obtain ⟨-, -, -, -, hr, herr, -⟩ := hInv
    simp [hstat, hr, herr]

/-- Witness for C2 at a concrete trace: a freshly created job
(`status = awaiting_payment`, `result` absent). -/
theorem C2_witness :
    AtMostOnceDelivery [Event.startOk "j" "p" "c" []] ∧
    runEvents initState [Event.startOk "j" "p" "c" []] =
      some (insertJobState initState "j" (newJob [] "p" "c")) ∧
    alookup (insertJobState initState "j" (newJob [] "p" "c")).jobs "j" =
      some (newJob [] "p" "c") ∧
    (((newJob [] "p" "c").result ≠ none ↔
        (newJob [] "p" "c").status = JobStatus.completed) ∧
      ((newJob [] "p" "c").status = JobStatus.failed →
        (newJob [] "p" "c").result = none ∧ (newJob [] "p" "c").error ≠ none)) :=
  ⟨by decide, by decide, by decide,
    C2_result_iff_completed [Event.startOk "j" "p" "c" []]
      (insertJobState initState "j" (newJob [] "p" "c")) "j"
      (newJob [] "p" "c") (by decide) (by decide) (by decide)⟩

/-- C6: in every state reached by operations whose payment callback is
delivered at most once per job (the adapter contract), a stored job that
is not terminal has exactly one live monitoring handle, and a terminal job
has none and has had the adapter's `stop_status_monitoring` called exactly
once for it. -/
theorem C6_monitoring_handle_lifecycle (es : List Event) (s : ServerState)
    (j : String) (job : Job)
    (hn : AtMostOnceDelivery es)
    (hrun : runEvents initState es = some s)
    (hj : alookup s.jobs j = some job) :
    ((job.status ≠ JobStatus.completed ∧ job.status ≠ JobStatus.failed) →
      scount s.payment_instances j = 1) ∧
    ((job.status = JobStatus.completed ∨ job.status = JobStatus.failed) →
      scount s.payment_instances j = 0 ∧ scount s.stopCalls j = 1) := by
  have hInv := runEvents_inv_init es hn s hrun j
  unfold JobInv JobInvObs jobObs at hInv
  rw [hj] at hInv
  dsimp only at hInv
  cases hstat : job.status with
  | awaiting_payment =>
    rw [hstat] at hInv
    dsimp only at hInv
    obtain ⟨h1, -⟩ := hInv
    simp [hstat, h1]
  | running =>
    rw [hstat] at hInv
    dsimp only at hInv
    obtain ⟨h1, -⟩ := hInv
    simp [hstat, h1]
  | completed =>
    rw [hstat] at hInv
    dsimp only at hInv
    obtain ⟨h1, -, -, h4, -⟩ := hInv
    simp [hstat, h1, h4]
  | failed =>
    rw [hstat] at hInv
    dsimp only at hInv
    obtain ⟨h1, -, -, h4, -⟩ := hInv
    simp [hstat, h1, h4]

/-- Witness for C6 at a concrete trace: a freshly created job is not
terminal and has exactly one live monitoring handle. -/
theorem C6_witness :
    AtMostOnceDelivery [Event.startOk "j" "p" "c" []] ∧
    runEvents initState [Event.startOk "j" "p" "c" []] =
      some (insertJobState initState "j" (newJob [] "p" "c")) ∧
    alookup (insertJobState initState "j" (newJob [] "p" "c")).jobs "j" =
      some (newJob [] "p" "c") ∧
    (((newJob [] "p" "c").status ≠ JobStatus.completed ∧
        (newJob [] "p" "c").status ≠ JobStatus.failed) →
      scount (insertJobState initState "j"
        (newJob [] "p" "c")).payment_instances "j" = 1) :=
  ⟨by decide, by decide, by decide,
    (C6_monitoring_handle_lifecycle [Event.startOk "j" "p" "c" []]
      (insertJobState initState "j" (newJob [] "p" "c")) "j"
      (newJob [] "p" "c") (by decide) (by decide) (by decide)).1⟩

/-- C7: a `/status` query for a stored job with a live monitoring handle
never fails when the adapter's `check_payment_status` call fails — the
response still carries the job's `status` and stored `result`, and the
failure only downgrades `payment_status` to `"unknown"` (on a
`ValueError`) or `"error"` (on any other exception). -/
theorem C7_status_query_resilient (s : ServerState) (job_id : String)
    (job : Job) (check : CheckOutcome)
    (hj : alookup s.jobs job_id = some job)
    (hm : smem s.payment_instances job_id = true)
    (hc : check = CheckOutcome.valueError ∨ check = CheckOutcome.otherError) :
    (get_status s job_id check).1 =
      Except.ok
        { job_id := job_id
          status := job.status
          payment_status :=
            some (if check = CheckOutcome.valueError then "unknown" else "error")
          result := job.result.map (fun r => r.raw) } := by
  rcases hc with h | h <;> subst h <;> simp [get_status, hj, hm]

/-- Witness for C7 at a concrete state: a job still awaiting payment whose
status refresh raises. -/
theorem C7_witness :
    alookup (insertJobState initState "j" (newJob [] "p" "c")).jobs "j" =
      some (newJob [] "p" "c") ∧
    smem (insertJobState initState "j"
      (newJob [] "p" "c")).payment_instances "j" = true ∧
    (get_status (insertJobState initState "j" (newJob [] "p" "c")) "j"
        CheckOutcome.valueError).1 =
      Except.ok
        { job_id := "j"
          status := (newJob [] "p" "c").status
          payment_status :=
            some (if CheckOutcome.valueError = CheckOutcome.valueError
              then "unknown" else "error")
          result := (newJob [] "p" "c").result.map (fun r => r.raw) } :=
  ⟨by decide, by decide,
    C7_status_query_resilient _ "j" _ CheckOutcome.valueError (by decide)
      (by decide) (Or.inl rfl)⟩

/-- C4 counterexample: with everything configured except `SELLER_VKEY` and
a successful adapter call, `start_job` fails with the `SELLER_VKEY`
configuration error but the job record is already persisted and the
monitoring handle already registered — the check sits after the insertion
(main.py line 246 after lines 228-243). -/
theorem C4_counterexample :
    (start_job
      { AGENT_IDENTIFIER := "agent-1"
        PAYMENT_SERVICE_URL := "http://pay.example"
        PAYMENT_API_KEY := "key-1"
        NETWORK := "preview"
        SELLER_VKEY := ""
        PAYMENT_AMOUNT := "1000000" }
      [("input_string", "Hi")] "j1" "c1"
      (Except.ok
        { blockchainIdentifier := "p1"
          submitResultTime := "1"
          unlockTime := "2"
          externalDisputeUnlockTime := "3"
          inputHash := "h" })
      initState).1 = Except.error StartJobError.configSellerVkey ∧
    alookup (start_job
      { AGENT_IDENTIFIER := "agent-1"
        PAYMENT_SERVICE_URL := "http://pay.example"
        PAYMENT_API_KEY := "key-1"
        NETWORK := "preview"
        SELLER_VKEY := ""
        PAYMENT_AMOUNT := "1000000" }
      [("input_string", "Hi")] "j1" "c1"
      (Except.ok
        { blockchainIdentifier := "p1"
          submitResultTime := "1"
          unlockTime := "2"
          externalDisputeUnlockTime := "3"
          inputHash := "h" })
      initState).2.jobs "j1" = some (newJob [("input_string", "Hi")] "p1" "c1") ∧
    smem (start_job
      { AGENT_IDENTIFIER := "agent-1"
        PAYMENT_SERVICE_URL := "http://pay.example"
        PAYMENT_API_KEY := "key-1"
        NETWORK := "preview"
        SELLER_VKEY := ""
        PAYMENT_AMOUNT := "1000000" }
      [("input_string", "Hi")] "j1" "c1"
      (Except.ok
        { blockchainIdentifier := "p1"
          submitResultTime := "1"
          unlockTime := "2"
          externalDisputeUnlockTime := "3"
          inputHash := "h" })
      initState).2.payment_instances "j1" = true := by
  refine ⟨by decide, by decide, by decide⟩

/-- C4 (amended): every `start_job` error other than the `SELLER_VKEY`
one — the `AGENT_IDENTIFIER`, `PAYMENT_SERVICE_URL`, `PAYMENT_API_KEY`,
missing-`input_string`, `PAYMENT_AMOUNT` configuration errors and both
classifications of an adapter failure — occurs before any state is
created: the job store and the monitoring registry are returned
unchanged. -/
theorem C4_no_state_on_early_errors (env : Env)
    (input_data : List (String × String)) (job_id ipid : String)
    (createRequest : Except String PaymentRequestData) (s : ServerState)
    (err : StartJobError)
    (herr : (start_job env input_data job_id ipid createRequest s).1 =
      Except.error err)
    (hsv : err ≠ StartJobError.configSellerVkey) :
    (start_job env input_data job_id ipid createRequest s).2 = s := by
  by_cases h1 : pyStrip env.AGENT_IDENTIFIER = "" ∨
      pyStrip env.AGENT_IDENTIFIER = "REPLACE"
  · simp [start_job, h1]
  · by_cases h2 : validate_url env.PAYMENT_SERVICE_URL "PAYMENT_SERVICE_URL" = ""
    · by_cases h3 : env.PAYMENT_API_KEY = ""
      · simp [start_job, h1, h2, h3]
      · by_cases h4 : pyDictHas input_data "input_string" = true
        · cases h5 : pyInt env.PAYMENT_AMOUNT with
          | none => simp [start_job, h1, h2, h3, h4, h5]
          | some n =>
            cases createRequest with
            | error e =>
              simp only [start_job, h1, h2, h3, h4, h5]
              simp [h2, h3, h4, h5]
              split <;> rfl
            | ok pr =>
              by_cases h6 : env.SELLER_VKEY = ""
              · simp [start_job, h1, h2, h3, h4, h5, h6] at herr
                exact absurd herr.symm hsv
              · simp [start_job, h1, h2, h3, h4, h5, h6] at herr
        · simp [start_job, h1, h2, h3, h4]
    · simp [start_job, h1, h2]

/-- Witness for C4 at a concrete early error: a placeholder-free but empty
`AGENT_IDENTIFIER` makes `start_job` fail while leaving the state
untouched. -/
theorem C4_witness :
    (start_job
      { AGENT_IDENTIFIER := ""
        PAYMENT_SERVICE_URL := "http://pay.example"
        PAYMENT_API_KEY := "key-1"
        NETWORK := "preview"
        SELLER_VKEY := "vk"
        PAYMENT_AMOUNT := "1000000" }
      [("input_string", "Hi")] "j1" "c1"
      (Except.ok
        { blockchainIdentifier := "p1"
          submitResultTime := "1"
          unlockTime := "2"
          externalDisputeUnlockTime := "3"
          inputHash := "h" })
      initState).1 = Except.error StartJobError.configAgentIdentifier ∧
    StartJobError.configAgentIdentifier ≠ StartJobError.configSellerVkey ∧
    (start_job
      { AGENT_IDENTIFIER := ""
        PAYMENT_SERVICE_URL := "http://pay.example"
        PAYMENT_API_KEY := "key-1"
        NETWORK := "preview"
        SELLER_VKEY := "vk"
        PAYMENT_AMOUNT := "1000000" }
      [("input_string", "Hi")] "j1" "c1"
      (Except.ok
        { blockchainIdentifier := "p1"
          submitResultTime := "1"
          unlockTime := "2"
          externalDisputeUnlockTime := "3"
          inputHash := "h" })
      initState).2 = initState :=
  ⟨by decide, by decide,
    C4_no_state_on_early_errors _ _ _ _ _ _
      StartJobError.configAgentIdentifier (by decide) (by decide)⟩

/-- C5 counterexample: after payment confirms and the Work Executor
raises, the error description is NOT stored in place of `result` — the job
ends `failed` with `result` still absent and the message under the
separate `error` key (main.py lines 339-340). -/
theorem C5_counterexample :
    (runEvents initState
      [Event.startOk "j1" "p1" "c1" [("input_string", "Hi")],
       Event.deliver "j1" "p1",
       Event.execRet "j1" (Except.error "boom")]).map
      (fun s => ((alookup s.jobs "j1").map
          (fun job => (job.status, job.result, job.error)),
        scount s.finalizeCalls "j1"))
    = some (some (JobStatus.failed, none, some "boom"), 0) := by
  decide

/-- C5 (amended): whenever the Work Executor raises after payment
confirmation (in any trace obeying the at-most-once callback contract),
the job ends with `status = failed`, the error description stored in the
separate `error` key while `result` stays absent, `complete_payment` never
called for that job, the monitoring handle released and
`stop_status_monitoring` called exactly once — and this persists through
the rest of the trace, so the job is never left stuck in `running`. -/
theorem C5_executor_failure (es1 es2 : List Event) (j msg : String)
    (s : ServerState)
    (hn : AtMostOnceDelivery
      (es1 ++ Event.execRet j (Except.error msg) :: es2))
    (hrun : runEvents initState
      (es1 ++ Event.execRet j (Except.error msg) :: es2) = some s) :
    ∃ job, alookup s.jobs j = some job ∧ job.status = JobStatus.failed ∧
      job.error = some msg ∧ job.result = none ∧
      scount s.finalizeCalls j = 0 ∧ scount s.payment_instances j = 0 ∧
      scount s.stopCalls j = 1 := by
  rw [runEvents_append] at hrun
  cases h1 : runEvents initState es1 with
  | none =>
    rw [h1] at hrun
    cases hrun
  | some s1 =>
    rw [h1] at hrun
    dsimp only at hrun
    simp only [runEvents] at hrun
    cases happly : applyEvent s1 (Event.execRet j (Except.error msg)) with
    | none =>
      rw [happly] at hrun
      cases hrun
    | some s2 =>
      rw [happly] at hrun
      have hcount : ∀ x,
          scount initState.execCalls x + scount (deliverTargets es1) x ≤ 1 := by
        intro x
        have hx := snodup_count_le_one _ hn x
        rw [deliverTargets_append, scount_append] at hx
        have h0 : scount initState.execCalls x = 0 := by simp [initState, scount]
        omega
      have hInv1 : ∀ x, JobInv s1 x :=
        fun x => runEvents_inv es1 initState (fun y => JobInv_init y) hcount s1 h1 x
      simp only [applyEvent] at happly
      cases heqh : alookup s1.handlers j with
      | none => simp [heqh] at happly
      | some ph =>
        cases ph with
        | finalizing pid r => simp [heqh] at happly
        | executing pid =>
          obtain ⟨job, hrec, hstat, hc, he, hs, hr, herr2, hf⟩ :=
            handler_running s1 j (.executing pid) (hInv1 j) heqh
          simp only at hf
          have hm : smem s1.payment_instances j = true := by
            rw [smem_iff_scount_pos, hc]
            decide
          simp only [heqh, Option.some.injEq] at happly
          subst happly
          have hfro2 : frozenObs (failJob s1 j msg) j =
              (some (JobStatus.failed, none, some msg), none, 0, 0, 1) := by
            unfold frozenObs
            simp [failJob, hm, alookup_aupdate_self, hrec,
              alookup_aerase_self, scount_sremove_self, scount_append,
              scount_singleton, hf, hs, hr]
          have hexec1 : s1.execCalls = deliverTargets es1 := by
            have hx := runEvents_execCalls es1 initState s1 h1
            simpa [initState] using hx
          have hd2 : scount (deliverTargets es2) j = 0 := by
            have hx := snodup_count_le_one _ hn j
            rw [deliverTargets_append, scount_append] at hx
            have hdt : deliverTargets
                (Event.execRet j (Except.error msg) :: es2) =
                deliverTargets es2 := by simp [deliverTargets]
            rw [hdt] at hx
            have h1c : scount (deliverTargets es1) j = 1 := by
              rw [← hexec1]
              exact he
            omega
          have hhand : alookup (failJob s1 j msg).handlers j = none := by
            simp [failJob, alookup_aerase_self]
          have hexx : ¬ alookup (failJob s1 j msg).jobs j = none := by
            simp [failJob, hm, alookup_aupdate_self, hrec]
          have hfroz :=
            no_deliver_frozen es2 (failJob s1 j msg) s j hhand hexx hd2 hrun
          rw [hfro2] at hfroz
          have hA := congrArg (fun t => t.1) hfroz
          have hB := congrArg (fun t => t.2.2.1) hfroz
          have hC := congrArg (fun t => t.2.2.2.1) hfroz
          have hD := congrArg (fun t => t.2.2.2.2) hfroz
          simp only [frozenObs] at hA hB hC hD
          cases hq : alookup s.jobs j with
          | none =>
            rw [hq] at hA
            simp at hA
          | some job2 =>
            rw [hq] at hA
            have hA2 : (job2.status, job2.result, job2.error) =
                (JobStatus.failed, none, some msg) := by
              simpa using hA
            exact ⟨job2, rfl, congrArg (fun t => t.1) hA2,
              congrArg (fun t => t.2.2) hA2,
              congrArg (fun t => t.2.1) hA2, hB, hC, hD⟩

/-- Witness for C5 at a concrete trace: the executor raises `"boom"` right
after the callback for a fresh job. -/
theorem C5_witness :
    AtMostOnceDelivery
      ([Event.startOk "j" "p" "c" [("input_string", "x")],
        Event.deliver "j" "p"] ++
        Event.execRet "j" (Except.error "boom") :: []) ∧
    ∃ job,
      alookup ((runEvents initState
        ([Event.startOk "j" "p" "c" [("input_string", "x")],
          Event.deliver "j" "p"] ++
          Event.execRet "j" (Except.error "boom") :: [])).getD
        initState).jobs "j" = some job ∧
      job.status = JobStatus.failed ∧ job.error = some "boom" ∧
      job.result = none ∧
      scount ((runEvents initState
        ([Event.startOk "j" "p" "c" [("input_string", "x")],
          Event.deliver "j" "p"] ++
          Event.execRet "j" (Except.error "boom") :: [])).getD
        initState).finalizeCalls "j" = 0 ∧
      scount ((runEvents initState
        ([Event.startOk "j" "p" "c" [("input_string", "x")],
          Event.deliver "j" "p"] ++
          Event.execRet "j" (Except.error "boom") :: [])).getD
        initState).payment_instances "j" = 0 ∧
      scount ((runEvents initState
        ([Event.startOk "j" "p" "c" [("input_string", "x")],
          Event.deliver "j" "p"] ++
          Event.execRet "j" (Except.error "boom") :: [])).getD
        initState).stopCalls "j" = 1 :=
  ⟨by decide,
    C5_executor_failure
      [Event.startOk "j" "p" "c" [("input_string", "x")],
        Event.deliver "j" "p"] [] "j" "boom"
      ((runEvents initState
        ([Event.startOk "j" "p" "c" [("input_string", "x")],
          Event.deliver "j" "p"] ++
          Event.execRet "j" (Except.error "boom") :: [])).getD initState)
      (by decide) (by rfl)⟩
